import Mathlib

set_option maxRecDepth 100000
set_option maxHeartbeats 1000000

/-!
# Verification of the Clevo/System76 fan-control daemon

A shallow embedding of the fan-control daemon's core data model and
operations, translated from the C sources (`src/clevo-daemon.c`,
`src/clevo-daemon-socket.c`, and the indicator variant), together with
theorems settling the specification claims.

Modelling conventions:
* C `int` values are embedded as `ℤ` (all quantities involved stay far from
  the 32-bit overflow boundary), C `double` state in the PID/adaptive layer
  as exact `ℚ` (the claims proved about that layer are order/clamp facts
  that hold for any rounding of the intermediate arithmetic);
* the one place where binary64 rounding is itself the subject of a claim
  (the duty-percentage to raw-byte conversion in `ec_write_fan_duty`) is
  modelled bit-exactly with scaled-integer arithmetic (`rnDouble` below);
* sequential C assignments become nested `let`s; the C idioms
  `if (x > hi) x = hi;` and `if (x < lo) x = lo;` are written with the
  helpers `cClampHi` / `cClampLo`;
* the EC register file is a function `ℕ → ℕ` (byte values), port reads
  truncate to a byte; an EC write transaction is recorded as an `EcTxn`
  value instead of performing I/O.
-/

/-- `if (x > hi) x = hi;` -/
def cClampHi {α : Type} [LinearOrder α] (x hi : α) : α :=
  if x > hi then hi else x

/-- `if (x < lo) x = lo;` -/
def cClampLo {α : Type} [LinearOrder α] (x lo : α) : α :=
  if x < lo then lo else x

theorem cClampHi_eq_min {α : Type} [LinearOrder α] (x hi : α) :
    cClampHi x hi = min hi x := by
  unfold cClampHi
  rcases lt_or_ge hi x with h | h
  · rw [if_pos h, min_eq_left h.le]
  · rw [if_neg (not_lt_of_ge h), min_eq_right h]

theorem cClampLo_eq_max {α : Type} [LinearOrder α] (x lo : α) :
    cClampLo x lo = max lo x := by
  unfold cClampLo
  rcases lt_or_ge x lo with h | h
  · rw [if_pos h, max_eq_left h.le]
  · rw [if_neg (not_lt_of_ge h), max_eq_right h]

/-- C cast `(int)` of a `double`: truncation toward zero. -/
def ctrunc (q : ℚ) : ℤ :=
  if 0 ≤ q then ⌊q⌋ else ⌈q⌉

/-! ## Bit-exact binary64 model (scaled integers)

`(int)(((double) p) / 100.0 * 255.0)` from `ec_write_fan_duty` is modelled
exactly: a positive binary64 value is represented as `m * 2 ^ (e - 52)`
with `m` the 53-bit significand obtained by round-to-nearest, ties-to-even.
Everything is `ℕ` arithmetic so that the kernel can evaluate it. -/

/-- Number of binary digits of `n` (fuel-driven so that it is structural;
call it as `bitlen n n`). -/
def bitlen : ℕ → ℕ → ℕ
  | 0, _ => 0
  | fuel + 1, n => if n = 0 then 0 else bitlen fuel (n / 2) + 1

/-- `⌊log₂ (n / d)⌋` for `n, d ≥ 1`. -/
def ilog2 (n d : ℕ) : ℤ :=
  let bn := bitlen n n
  let bd := bitlen d d
  if d * 2 ^ bn ≤ n * 2 ^ bd then (bn : ℤ) - bd else (bn : ℤ) - bd - 1

/-- Round-to-nearest, ties-to-even, of the quotient `num / den`. -/
def rne (num den : ℕ) : ℕ :=
  let q := num / den
  let r := num % den
  if den < 2 * r then q + 1
  else if 2 * r < den then q
  else if q % 2 = 0 then q else q + 1

/-- The binary64 value nearest to `n / d` (for `n, d ≥ 1`), as a pair
`(m, e)` denoting `m * 2 ^ (e - 52)`. -/
def rnDouble (n d : ℕ) : ℕ × ℤ :=
  let e := ilog2 n d
  let m := if e ≤ 52 then rne (n * 2 ^ (52 - e).toNat) d
           else rne n (d * 2 ^ (e - 52).toNat)
  (m, e)

/-- Bit-exact binary64 evaluation of `(int)(((double) p) / 100.0 * 255.0)`
for `p ≥ 1`: round `p / 100` to a double, multiply by `255.0` (exact
product re-rounded to a double), then truncate to an integer. -/
def cDoublePctToRaw (p : ℕ) : ℕ :=
  let a := rnDouble p 100
  let b := if a.2 ≤ 52 then rnDouble (a.1 * 255) (2 ^ (52 - a.2).toNat)
           else rnDouble (a.1 * 255 * 2 ^ (a.2 - 52).toNat) 1
  if b.2 ≤ 52 then b.1 / 2 ^ (52 - b.2).toNat else b.1 * 2 ^ (b.2 - 52).toNat

/-! ## Shared state (`share_info`, `clevo-daemon.c`) -/

/-- The anonymous shared-memory struct `share_info`. -/
structure Share where
  exitFlag : ℤ
  cpuTemp : ℤ
  gpuTemp : ℤ
  fanDuty : ℤ
  fanRpms : ℤ
  autoDuty : ℤ
  autoDutyVal : ℤ
  manualNextFanDuty : ℤ
  manualPrevFanDuty : ℤ
deriving DecidableEq

/-- `daemon_init_share` (field values after initialisation). -/
def daemon_init_share : Share :=
  { exitFlag := 0, cpuTemp := 0, gpuTemp := 0, fanDuty := 0, fanRpms := 0
    autoDuty := 1, autoDutyVal := 0, manualNextFanDuty := 0, manualPrevFanDuty := 0 }

/-! ## EC transport and sensor layer -/

/-- `ec_io_read`: a port-level register read yields one byte.  The EC
register file is modelled as a function from addresses to stored values;
a read truncates to a byte, as the hardware returns `uint8_t`. -/
def ec_io_read (mem : ℕ → ℕ) (port : ℕ) : ℤ :=
  ((mem port) % 256 : ℕ)

/-- `calculate_fan_rpms`: `raw = (hi << 8) + lo`;
`raw > 0 ? 2156220 / raw : 0` (C `int` division truncates toward zero). -/
def calculate_fan_rpms (rawRpmHigh rawRpmLow : ℤ) : ℤ :=
  let rawRpm := rawRpmHigh * 2 ^ 8 + rawRpmLow
  if 0 < rawRpm then Int.tdiv 2156220 rawRpm else 0

/-- `ec_query_fan_rpms`: read registers 0xD0 (high) and 0xD1 (low), then
derive the RPM value. -/
def ec_query_fan_rpms (mem : ℕ → ℕ) : ℤ :=
  calculate_fan_rpms (ec_io_read mem 0xD0) (ec_io_read mem 0xD1)

/-- A port-level EC write transaction `ec_io_do(cmd, port, value)`,
recorded instead of performed. -/
structure EcTxn where
  cmd : ℕ
  port : ℕ
  value : ℤ
deriving DecidableEq

/-- `ec_write_fan_duty`: reject a duty outside 1..100 (returns
`EXIT_FAILURE` before any EC transaction, modelled as `none`), otherwise
issue `ec_io_do(0x99, 0x01, (int)(((double) duty) / 100.0 * 255.0))`. -/
def ec_write_fan_duty (dutyPercentage : ℤ) : Option EcTxn :=
  if dutyPercentage < 1 ∨ 100 < dutyPercentage then none
  else some ⟨0x99, 0x01, (cDoublePctToRaw dutyPercentage.toNat : ℤ)⟩

/-! ## Claim C9: fan RPM derivation -/

/-- C9. For every pair of raw bytes read from registers 0xD0 and 0xD1, the
reported fan RPM is `⌊2156220 / d⌋` for the big-endian divisor
`d = hi * 256 + lo` when `d > 0`, and `0` when `d = 0`.  Quantifying over
the register file makes the byte bounds automatic. -/
theorem C9_fan_rpm_formula (mem : ℕ → ℕ) :
    ec_query_fan_rpms mem =
      if 0 < (mem 0xD0 % 256) * 256 + (mem 0xD1 % 256) then
        ⌊(2156220 : ℚ) / (((mem 0xD0 % 256) * 256 + (mem 0xD1 % 256) : ℕ) : ℚ)⌋
      else 0 := by
  unfold ec_query_fan_rpms calculate_fan_rpms ec_io_read
  set h : ℕ := mem 0xD0 % 256 with hh
  set l : ℕ := mem 0xD1 % 256 with hl
  have hcast : ((h : ℤ) * 2 ^ 8 + (l : ℤ)) = ((h * 256 + l : ℕ) : ℤ) := by
    push_cast; ring
  rw [hcast]
  by_cases hpos : 0 < h * 256 + l
  · rw [if_pos (by exact_mod_cast hpos), if_pos hpos,
      Int.tdiv_eq_ediv (by norm_num) (by exact_mod_cast hpos.le),
      show ((2156220 : ℚ)) = (((2156220 : ℤ)) : ℚ) by norm_num,
      Rat.floor_intCast_div_natCast 2156220 (h * 256 + l)]
  · rw [if_neg (by exact_mod_cast hpos), if_neg hpos]

/-! ## Claim C3: duty-percentage conversion in `ec_write_fan_duty` -/

/-- C3, counterexample.  The claim states the written raw value is
`round(pct * 255 / 100)` (nearest integer).  At `pct = 10` the exact value
is `25.5`; the binary64 product `(10 / 100.0) * 255.0` is exactly `25.5`
and the C cast `(int)` truncates it to `25`, whereas nearest-integer
rounding gives `26`. -/
theorem C3_counterexample :
    ec_write_fan_duty 10 = some ⟨0x99, 0x01, 25⟩ ∧
      round ((10 * 255 : ℚ) / 100) = 26 := by
  constructor
  · decide
  · rw [round_eq]; norm_num

/-- C3, amended: `write_fan_duty(pct)` rejects every pct outside 1..100
with no EC transaction; for pct in 1..100 it issues one transaction with
command 0x99, port 0x01 and value `⌊pct * 255 / 100⌋` (the C cast
truncates the binary64 product, which on this domain coincides with the
exact floor). -/
theorem C3_write_fan_duty_floor :
    (∀ d : ℤ, d < 1 ∨ 100 < d → ec_write_fan_duty d = none) ∧
    (∀ d ∈ Finset.Icc (1 : ℤ) 100,
        ec_write_fan_duty d = some ⟨0x99, 0x01, d * 255 / 100⟩ ∧
        d * 255 / 100 = ⌊((d : ℚ) * 255) / 100⌋) := by
  constructor
  · intro d hd
    unfold ec_write_fan_duty
    rw [if_pos hd]
  · intro d hd
    constructor
    · revert hd
      revert d
      decide
    · rw [show ((d : ℚ) * 255) / 100 = ((d * 255 : ℤ) : ℚ) / ((100 : ℕ) : ℚ) by push_cast; ring]
      rw [Rat.floor_intCast_div_natCast (d * 255) 100]
      norm_num

/-- C3 witness: instantiating the amended theorem at a rejected input and
at an accepted one. -/
theorem C3_write_fan_duty_floor_witness :
    ec_write_fan_duty 0 = none ∧
      ec_write_fan_duty 10 = some ⟨0x99, 0x01, 25⟩ := by
  refine ⟨C3_write_fan_duty_floor.1 0 (by norm_num), ?_⟩
  have h := (C3_write_fan_duty_floor.2 10 (by decide)).1
  rw [h]
  norm_num

/-! ## PID core (`clevo-daemon.c`, `ec_auto_duty_adjust` lines 432-459)

In the daemon the output bounds are the fixed globals
`pid_output_min = 0.0`, `pid_output_max = 100.0` (its option parser never
touches them). -/

def pid_output_min : ℚ := 0
def pid_output_max : ℚ := 100

/-- The mutable PID globals `pid_integral` and `pid_prev_error`. -/
structure PidState where
  integral : ℚ
  prevError : ℚ
deriving DecidableEq

/-- `pid_reset()`: zero the integral and the previous error. -/
def pid_reset_state : PidState := ⟨0, 0⟩

/-- One discrete PID update (the controller section of
`ec_auto_duty_adjust`): proportional term, integral with anti-windup
clamp, derivative, output saturation, duty rounding `(int)(output + 0.5)`
and the final duty clamp to 0..100.  Returns the updated state, the
clamped output and the integer duty. -/
def pid_update (kp ki kd : ℚ) (st : PidState) (error : ℚ) : PidState × ℚ × ℤ :=
  let proportional := kp * error
  let integral0 := cClampLo (cClampHi (st.integral + error) 100) (-100)
  let integral := ki * integral0
  let derivative := kd * (error - st.prevError)
  let output := proportional + integral + derivative
  let output := cClampLo (cClampHi output pid_output_max) pid_output_min
  let newDuty := ctrunc (output + 0.5)
  let newDuty := cClampLo (cClampHi newDuty 100) 0
  (⟨integral0, error⟩, output, newDuty)

/-- Run the PID controller over a list of sampled temperatures
(`error = temp - target` each tick), collecting the per-update results. -/
def pid_run (kp ki kd : ℚ) (target : ℤ) : PidState → List ℤ → List (PidState × ℚ × ℤ)
  | _, [] => []
  | st, t :: ts =>
    let r := pid_update kp ki kd st ((t : ℚ) - (target : ℚ))
    r :: pid_run kp ki kd target r.1 ts

theorem pid_update_bounds (kp ki kd : ℚ) (st : PidState) (error : ℚ) :
    -100 ≤ (pid_update kp ki kd st error).1.integral ∧
      (pid_update kp ki kd st error).1.integral ≤ 100 ∧
      pid_output_min ≤ (pid_update kp ki kd st error).2.1 ∧
      (pid_update kp ki kd st error).2.1 ≤ pid_output_max ∧
      0 ≤ (pid_update kp ki kd st error).2.2 ∧
      (pid_update kp ki kd st error).2.2 ≤ 100 := by
  unfold pid_update
  simp only [cClampLo_eq_max, cClampHi_eq_min, pid_output_min, pid_output_max]
  refine ⟨le_max_left _ _, ?_, ?_, ?_, le_max_left _ _, ?_⟩
  · exact max_le (by norm_num) (min_le_left _ _)
  · exact le_max_left _ _
  · exact max_le (by norm_num) (min_le_left _ _)
  · exact max_le (by norm_num) (min_le_left _ _)

theorem pid_run_bounds_aux (kp ki kd : ℚ) (target : ℤ) (st : PidState)
    (temps : List ℤ) (r : PidState × ℚ × ℤ) (hr : r ∈ pid_run kp ki kd target st temps) :
    (-100 ≤ r.1.integral ∧ r.1.integral ≤ 100) ∧
      (pid_output_min ≤ r.2.1 ∧ r.2.1 ≤ pid_output_max) ∧
      (0 ≤ r.2.2 ∧ r.2.2 ≤ 100) := by
  induction temps generalizing st with
  | nil => simp [pid_run] at hr
  | cons t ts ih =>
    rw [pid_run, List.mem_cons] at hr
    rcases hr with hr | hr
    · subst hr
      have h := pid_update_bounds kp ki kd st ((t : ℚ) - (target : ℚ))
      exact ⟨⟨h.1, h.2.1⟩, ⟨h.2.2.1, h.2.2.2.1⟩, ⟨h.2.2.2.2.1, h.2.2.2.2.2⟩⟩
    · exact ih _ hr

/-- C7.  For every finite sequence of PID updates from the reset state,
every update leaves the integral accumulator in `[-100, 100]`, yields a
clamped output in `[pid_output_min, pid_output_max]` and an integer duty
in `[0, 100]` — for arbitrary gains and an arbitrary target. -/
theorem C7_pid_invariants (kp ki kd : ℚ) (target : ℤ) (temps : List ℤ)
    (r : PidState × ℚ × ℤ) (hr : r ∈ pid_run kp ki kd target pid_reset_state temps) :
    (-100 ≤ r.1.integral ∧ r.1.integral ≤ 100) ∧
      (pid_output_min ≤ r.2.1 ∧ r.2.1 ≤ pid_output_max) ∧
      (0 ≤ r.2.2 ∧ r.2.2 ≤ 100) :=
  pid_run_bounds_aux kp ki kd target pid_reset_state temps r hr

/-- C7 witness: one step from reset with the default gains at
`temp = 70, target = 65` (error 5, integral 5, output
`2*5 + 0.1*5 + 0.5*5 = 13`, duty 13). -/
theorem C7_pid_invariants_witness :
    (⟨⟨5, 5⟩, 13, 13⟩ : PidState × ℚ × ℤ) ∈
        pid_run 2 (1/10) (1/2) 65 pid_reset_state [70] ∧
      (-100 ≤ (5 : ℚ) ∧ (5 : ℚ) ≤ 100) ∧
        (pid_output_min ≤ (13 : ℚ) ∧ (13 : ℚ) ≤ pid_output_max) ∧
        (0 ≤ (13 : ℤ) ∧ (13 : ℤ) ≤ 100) := by
  have hmem : (⟨⟨5, 5⟩, 13, 13⟩ : PidState × ℚ × ℤ) ∈
      pid_run 2 (1/10) (1/2) 65 pid_reset_state [70] := by
    simp only [pid_run, pid_update, pid_reset_state, cClampLo, cClampHi,
      ctrunc, pid_output_min, pid_output_max, List.mem_cons]
    norm_num
  exact ⟨hmem, C7_pid_invariants 2 (1/10) (1/2) 65 [70] _ hmem⟩

/-! ## Adaptive layer: configuration and controller state

`Cfg` collects the configuration globals.  In the daemon
(`clevo-daemon.c`) only `target_temperature`, `pid_enabled`,
`adaptive_pid_enabled`, `adaptive_tuning_interval` and
`adaptive_target_performance` are settable; the indicator variant
additionally parses the PID gains (unclamped) and the rapid/steady
learning parameters. -/

structure Cfg where
  targetTemperature : ℤ
  pidEnabled : Bool
  adaptivePidEnabled : Bool
  adaptiveTuningInterval : ℤ
  adaptiveTargetPerformance : ℚ
  adaptiveRapidLearningMax : ℤ
  adaptiveRapidStepMultiplier : ℚ
  adaptiveSteadyStateThreshold : ℚ
  adaptiveSteadyStateCyclesRequired : ℤ
deriving DecidableEq

/-- The default configuration values from the C globals. -/
def defaultCfg : Cfg :=
  { targetTemperature := 65, pidEnabled := true, adaptivePidEnabled := true
    adaptiveTuningInterval := 30, adaptiveTargetPerformance := 0.8
    adaptiveRapidLearningMax := 10, adaptiveRapidStepMultiplier := 3
    adaptiveSteadyStateThreshold := 0.05, adaptiveSteadyStateCyclesRequired := 5 }

/-- The mutable PID/adaptive globals.  The rolling temperature history
`adaptive_temp_history[60]` is the function `hist` together with the
insertion index and the fill count.  `rapidLearningCycles` and
`consecutiveStableCycles` exist only in the indicator variant; the daemon
tuner never touches them. -/
structure Ctl where
  pidKp : ℚ
  pidKi : ℚ
  pidKd : ℚ
  pid : PidState
  adaptiveLearningCycles : ℤ
  adaptivePerformanceScore : ℚ
  adaptivePrevScore : ℚ
  adaptiveCycleCount : ℤ
  hist : ℕ → ℚ
  histIndex : ℕ
  histSize : ℕ
  kpStep : ℚ
  kiStep : ℚ
  kdStep : ℚ
  rapidLearningCycles : ℤ
  consecutiveStableCycles : ℤ

/-- Initial values of the controller globals (also the state after
`pid_reset()` + `adaptive_pid_reset()`). -/
def initCtl : Ctl :=
  { pidKp := 2, pidKi := 0.1, pidKd := 0.5, pid := pid_reset_state
    adaptiveLearningCycles := 0, adaptivePerformanceScore := 0
    adaptivePrevScore := 0, adaptiveCycleCount := 0
    hist := fun _ => 0, histIndex := 0, histSize := 0
    kpStep := 0.1, kiStep := 0.01, kdStep := 0.05
    rapidLearningCycles := 0, consecutiveStableCycles := 0 }

/-- The indicator's `parse_command_line` case for `--pid-kp`:
`pid_kp = atof(optarg);` with no range check. -/
def parse_option_pid_kp (v : ℚ) (c : Ctl) : Ctl :=
  { c with pidKp := v }

/-- `adaptive_pid_add_temp_history`: store at the insertion index, advance
it modulo 60, grow the fill count up to 60. -/
def adaptive_pid_add_temp_history (c : Ctl) (temp : ℤ) : Ctl :=
  { c with hist := Function.update c.hist c.histIndex (temp : ℚ)
           histIndex := (c.histIndex + 1) % 60
           histSize := if c.histSize < 60 then c.histSize + 1 else c.histSize }

/-- Model of the C `sqrt` on a nonnegative rational: an integer square
root at 80 fractional bits.  It agrees with the binary64 square root to
within `2 ^ (-40)`, and is exact at `0` — the only point at which any
theorem below depends on its value. -/
def c_sqrt (q : ℚ) : ℚ :=
  ((Int.sqrt ⌊q * 4 ^ 40⌋ : ℤ) : ℚ) / 2 ^ 40

/-- `adaptive_pid_calculate_oscillation`: standard deviation of the stored
history; `0` when fewer than 10 samples are stored. -/
def adaptive_pid_calculate_oscillation (c : Ctl) : ℚ :=
  if c.histSize < 10 then 0
  else
    let mean := (∑ i in Finset.range c.histSize, c.hist i) / (c.histSize : ℚ)
    let variance := (∑ i in Finset.range c.histSize, (c.hist i - mean) ^ 2) / (c.histSize : ℚ)
    c_sqrt variance

/-- `adaptive_pid_calculate_performance_score`: weighted combination of
proximity to target, oscillation and fan efficiency. -/
def adaptive_pid_calculate_performance_score (cfg : Cfg) (sh : Share) (c : Ctl) : ℚ :=
  let temp := max sh.cpuTemp sh.gpuTemp
  let error := |(temp : ℚ) - (cfg.targetTemperature : ℚ)|
  let oscillation := adaptive_pid_calculate_oscillation c
  let errorScore := cClampHi (cClampLo (1 - error / 50) 0) 1
  let oscillationPenalty := cClampHi (oscillation / 10) 1
  let fanEfficiency := 1 - (sh.fanDuty : ℚ) / 100
  let fanScore := if error < 5 then fanEfficiency else 0
  errorScore * 0.6 + (1 - oscillationPenalty) * 0.3 + fanScore * 0.1

/-- `adaptive_pid_tune_parameters`, daemon variant (`clevo-daemon.c`):
direction reversal mutates the *stored* step sizes, then the gains are
adjusted using them.  Kp is clamped only inside its adjustment branch;
Ki and Kd are clamped unconditionally at the end. -/
def adaptive_pid_tune_parameters (cfg : Cfg) (sh : Share) (c : Ctl) : Ctl :=
  let currentScore := adaptive_pid_calculate_performance_score cfg sh c
  let scoreChange := currentScore - c.adaptivePrevScore
  let steps :=
    if scoreChange > 0.05 then (c.kpStep, c.kiStep, c.kdStep)
    else if scoreChange < -0.05 then
      (c.kpStep * (-0.8), c.kiStep * (-0.8), c.kdStep * (-0.8))
    else (c.kpStep, c.kiStep, c.kdStep)
  let pidKp :=
    if currentScore < cfg.adaptiveTargetPerformance then
      cClampHi (cClampLo (c.pidKp + steps.1) 0.5) 5
    else c.pidKp
  let oscillation := adaptive_pid_calculate_oscillation c
  let temp := max sh.cpuTemp sh.gpuTemp
  let error := |(temp : ℚ) - (cfg.targetTemperature : ℚ)|
  let kikd :=
    if oscillation > 3 then (c.pidKi - steps.2.1, c.pidKd + steps.2.2)
    else if error > 5 then (c.pidKi + steps.2.1, c.pidKd)
    else (c.pidKi, c.pidKd)
  let pidKi := cClampHi (cClampLo kikd.1 0.01) 0.5
  let pidKd := cClampHi (cClampLo kikd.2 0.1) 2
  { c with pidKp := pidKp, pidKi := pidKi, pidKd := pidKd
           kpStep := steps.1, kiStep := steps.2.1, kdStep := steps.2.2
           adaptivePrevScore := currentScore
           adaptivePerformanceScore := currentScore
           adaptiveLearningCycles := c.adaptiveLearningCycles + 1 }

/-- `adaptive_pid_tune_parameters`, indicator variant
(`clevo-daemon-socket.c` / `clevo-indicator.c`): phase-dependent step
multiplier; the reversal on regression applies to the *local* effective
steps (`current_kp_step` etc.) — the stored step sizes are never
mutated. -/
def adaptive_pid_tune_parameters_ind (cfg : Cfg) (sh : Share) (c : Ctl) : Ctl :=
  let currentScore := adaptive_pid_calculate_performance_score cfg sh c
  let scoreChange := currentScore - c.adaptivePrevScore
  let rapidLearning := c.rapidLearningCycles < cfg.adaptiveRapidLearningMax
  let approachingSteadyState :=
    c.consecutiveStableCycles ≥ cfg.adaptiveSteadyStateCyclesRequired
  let stepMultiplier :=
    if rapidLearning then cfg.adaptiveRapidStepMultiplier
    else if approachingSteadyState then (0.3 : ℚ) else 1
  let steps0 := (c.kpStep * stepMultiplier, c.kiStep * stepMultiplier,
    c.kdStep * stepMultiplier)
  let consecutiveStable :=
    if |scoreChange| < cfg.adaptiveSteadyStateThreshold then
      c.consecutiveStableCycles + 1
    else 0
  let steps :=
    if scoreChange > 0.05 then steps0
    else if scoreChange < -0.05 then
      (steps0.1 * (-0.8), steps0.2.1 * (-0.8), steps0.2.2 * (-0.8))
    else steps0
  let pidKp :=
    if currentScore < cfg.adaptiveTargetPerformance then
      cClampHi (cClampLo (c.pidKp + steps.1) 0.5) 5
    else c.pidKp
  let oscillation := adaptive_pid_calculate_oscillation c
  let temp := max sh.cpuTemp sh.gpuTemp
  let error := |(temp : ℚ) - (cfg.targetTemperature : ℚ)|
  let kikd :=
    if oscillation > 3 then (c.pidKi - steps.2.1, c.pidKd + steps.2.2)
    else if error > 5 then (c.pidKi + steps.2.1, c.pidKd)
    else (c.pidKi, c.pidKd)
  let pidKi := cClampHi (cClampLo kikd.1 0.01) 0.5
  let pidKd := cClampHi (cClampLo kikd.2 0.1) 2
  { c with pidKp := pidKp, pidKi := pidKi, pidKd := pidKd
           adaptivePrevScore := currentScore
           adaptivePerformanceScore := currentScore
           adaptiveLearningCycles := c.adaptiveLearningCycles + 1
           consecutiveStableCycles := consecutiveStable
           rapidLearningCycles :=
             if rapidLearning then c.rapidLearningCycles + 1
             else c.rapidLearningCycles }

/-- `ec_auto_duty_adjust` (daemon): with PID disabled, the simple
proportional-step fallback; with PID enabled, push the sample into the
adaptive history, run the tuner when the cycle counter reaches the tuning
interval, then perform the PID update. -/
def ec_auto_duty_adjust (cfg : Cfg) (sh : Share) (c : Ctl) : Ctl × ℤ :=
  if cfg.pidEnabled = false then
    let temp := max sh.cpuTemp sh.gpuTemp
    let duty := sh.fanDuty
    let newDuty :=
      if temp ≥ cfg.targetTemperature then max (duty + 2) 10 else max (duty - 2) 0
    let newDuty := if newDuty > 100 then 100 else if newDuty < 0 then 0 else newDuty
    (c, newDuty)
  else
    let temp := max sh.cpuTemp sh.gpuTemp
    let error := (temp : ℚ) - (cfg.targetTemperature : ℚ)
    let c1 :=
      if cfg.adaptivePidEnabled then
        let c2 := adaptive_pid_add_temp_history c temp
        let c2 := { c2 with adaptiveCycleCount := c2.adaptiveCycleCount + 1 }
        if c2.adaptiveCycleCount ≥ cfg.adaptiveTuningInterval then
          { adaptive_pid_tune_parameters cfg sh c2 with adaptiveCycleCount := 0 }
        else c2
      else c
    let r := pid_update c1.pidKp c1.pidKi c1.pidKd c1.pid error
    ({ c1 with pid := r.1 }, r.2.2)

/-- The auto-control section of `daemon_ec_worker` (`clevo-daemon.c`
lines 340-352): compute the next duty; issue an EC write (recorded as
`some duty`) only when it is nonzero *and* differs from `auto_duty_val`;
in that case `auto_duty_val` is set to the new duty — the return value of
`ec_write_fan_duty` is ignored. -/
def daemon_ec_worker_auto (cfg : Cfg) (sh : Share) (c : Ctl) :
    Share × Ctl × Option ℤ :=
  if sh.autoDuty = 1 then
    let r := ec_auto_duty_adjust cfg sh c
    if r.2 ≠ 0 ∧ r.2 ≠ sh.autoDutyVal then
      ({ sh with autoDutyVal := r.2 }, r.1, some r.2)
    else (sh, r.1, none)
  else (sh, c, none)

/-! ## Claim C5: gain clamping after a tuner pass -/

theorem cClamp_mem {x lo hi : ℚ} (h : lo ≤ hi) :
    lo ≤ cClampHi (cClampLo x lo) hi ∧ cClampHi (cClampLo x lo) hi ≤ hi := by
  rw [cClampHi_eq_min, cClampLo_eq_max]
  exact ⟨le_min h (le_max_left _ _), min_le_left _ _⟩

/-- C5, counterexample.  The claim asserts `Kp ∈ [0.5, 5.0]` after *every*
tuner pass from every reachable state, including gains set on the command
line.  The indicator's option parser stores `--pid-kp` without any range
check; a pass whose performance score is at least the target performance
never touches (hence never clamps) Kp.  Start from `--pid-kp 50` with an
idle snapshot at the target temperature (score 1.0 ≥ 0.8): after the pass
Kp is still 50, outside `[0.5, 5]`. -/
theorem C5_counterexample :
    (adaptive_pid_tune_parameters_ind defaultCfg
        { daemon_init_share with cpuTemp := 65, gpuTemp := 65 }
        (parse_option_pid_kp 50 initCtl)).pidKp = 50 ∧
      ¬((50 : ℚ) ≤ 5) := by
  constructor
  · unfold adaptive_pid_tune_parameters_ind parse_option_pid_kp initCtl defaultCfg
      daemon_init_share adaptive_pid_calculate_performance_score
      adaptive_pid_calculate_oscillation
    norm_num [cClampHi, cClampLo]
  · norm_num

/-- C5, amended: after every pass of either tuner variant, Ki lies in
`[0.01, 0.5]` and Kd in `[0.1, 2.0]` unconditionally; Kp lies in
`[0.5, 5.0]` after every pass whose performance score is below the target
performance (the only case in which Kp is adjusted), and Kp remains in
`[0.5, 5.0]` whenever it was in that range before the pass.  A Kp placed
outside the range by the command line survives passes with score at or
above the target. -/
theorem C5_gain_clamps (cfg : Cfg) (sh : Share) (c : Ctl) :
    ((0.01 : ℚ) ≤ (adaptive_pid_tune_parameters cfg sh c).pidKi ∧
      (adaptive_pid_tune_parameters cfg sh c).pidKi ≤ 0.5 ∧
      (0.1 : ℚ) ≤ (adaptive_pid_tune_parameters cfg sh c).pidKd ∧
      (adaptive_pid_tune_parameters cfg sh c).pidKd ≤ 2) ∧
    (adaptive_pid_calculate_performance_score cfg sh c < cfg.adaptiveTargetPerformance →
      (0.5 : ℚ) ≤ (adaptive_pid_tune_parameters cfg sh c).pidKp ∧
        (adaptive_pid_tune_parameters cfg sh c).pidKp ≤ 5) ∧
    ((0.5 : ℚ) ≤ c.pidKp → c.pidKp ≤ 5 →
      (0.5 : ℚ) ≤ (adaptive_pid_tune_parameters cfg sh c).pidKp ∧
        (adaptive_pid_tune_parameters cfg sh c).pidKp ≤ 5) ∧
    ((0.01 : ℚ) ≤ (adaptive_pid_tune_parameters_ind cfg sh c).pidKi ∧
      (adaptive_pid_tune_parameters_ind cfg sh c).pidKi ≤ 0.5 ∧
      (0.1 : ℚ) ≤ (adaptive_pid_tune_parameters_ind cfg sh c).pidKd ∧
      (adaptive_pid_tune_parameters_ind cfg sh c).pidKd ≤ 2) ∧
    (adaptive_pid_calculate_performance_score cfg sh c < cfg.adaptiveTargetPerformance →
      (0.5 : ℚ) ≤ (adaptive_pid_tune_parameters_ind cfg sh c).pidKp ∧
        (adaptive_pid_tune_parameters_ind cfg sh c).pidKp ≤ 5) ∧
    ((0.5 : ℚ) ≤ c.pidKp → c.pidKp ≤ 5 →
      (0.5 : ℚ) ≤ (adaptive_pid_tune_parameters_ind cfg sh c).pidKp ∧
        (adaptive_pid_tune_parameters_ind cfg sh c).pidKp ≤ 5) := by
  unfold adaptive_pid_tune_parameters adaptive_pid_tune_parameters_ind
  dsimp only
  refine ⟨⟨(cClamp_mem (by norm_num)).1, (cClamp_mem (by norm_num)).2,
      (cClamp_mem (by norm_num)).1, (cClamp_mem (by norm_num)).2⟩,
    ?_, ?_,
    ⟨(cClamp_mem (by norm_num)).1, (cClamp_mem (by norm_num)).2,
      (cClamp_mem (by norm_num)).1, (cClamp_mem (by norm_num)).2⟩,
    ?_, ?_⟩
  · intro hs
    rw [if_pos hs]
    exact cClamp_mem (by norm_num)
  · intro h1 h2
    by_cases hs : adaptive_pid_calculate_performance_score cfg sh c <
        cfg.adaptiveTargetPerformance
    · rw [if_pos hs]; exact cClamp_mem (by norm_num)
    · rw [if_neg hs]; exact ⟨h1, h2⟩
  · intro hs
    rw [if_pos hs]
    exact cClamp_mem (by norm_num)
  · intro h1 h2
    by_cases hs : adaptive_pid_calculate_performance_score cfg sh c <
        cfg.adaptiveTargetPerformance
    · rw [if_pos hs]; exact cClamp_mem (by norm_num)
    · rw [if_neg hs]; exact ⟨h1, h2⟩

/-- C5 witness: the amended theorem at concrete inputs.  With the default
state and a hot snapshot the score (0.3) is below the target (0.8), so Kp
is adjusted and clamped; the default Kp = 2 is in range and stays there. -/
theorem C5_gain_clamps_witness :
    ((0.5 : ℚ) ≤ (adaptive_pid_tune_parameters defaultCfg
        { daemon_init_share with cpuTemp := 115, gpuTemp := 115 } initCtl).pidKp ∧
      (adaptive_pid_tune_parameters defaultCfg
        { daemon_init_share with cpuTemp := 115, gpuTemp := 115 } initCtl).pidKp ≤ 5) ∧
    ((0.01 : ℚ) ≤ (adaptive_pid_tune_parameters defaultCfg
        { daemon_init_share with cpuTemp := 115, gpuTemp := 115 } initCtl).pidKi ∧
      (adaptive_pid_tune_parameters defaultCfg
        { daemon_init_share with cpuTemp := 115, gpuTemp := 115 } initCtl).pidKi ≤ 0.5) := by
  have h := C5_gain_clamps defaultCfg
    { daemon_init_share with cpuTemp := 115, gpuTemp := 115 } initCtl
  have hscore : adaptive_pid_calculate_performance_score defaultCfg
      { daemon_init_share with cpuTemp := 115, gpuTemp := 115 } initCtl <
      defaultCfg.adaptiveTargetPerformance := by
    unfold adaptive_pid_calculate_performance_score
      adaptive_pid_calculate_oscillation initCtl defaultCfg daemon_init_share
    norm_num [cClampHi, cClampLo]
  exact ⟨h.2.1 hscore, h.1.1, h.1.2.1⟩

/-! ## Claim C6: direction reversal of the adaptive step sizes -/

/-- C6, counterexample.  The claim asserts that in every tuner pass with
`Δscore < -0.05` the *stored* step sizes become `-0.8` times their
previous value.  In the indicator variant the reversal is applied to the
per-pass effective steps only: here a pass with `Δscore = -0.6` leaves the
stored `adaptive_kp_step` at its old value `0.1 ≠ -0.8 * 0.1`. -/
theorem C6_counterexample :
    adaptive_pid_calculate_performance_score defaultCfg
        { daemon_init_share with cpuTemp := 115, gpuTemp := 115 }
        { initCtl with adaptivePrevScore := 0.9 } -
      ({ initCtl with adaptivePrevScore := 0.9 } : Ctl).adaptivePrevScore < -0.05 ∧
    (adaptive_pid_tune_parameters_ind defaultCfg
        { daemon_init_share with cpuTemp := 115, gpuTemp := 115 }
        { initCtl with adaptivePrevScore := 0.9 }).kpStep = 0.1 ∧
    (0.1 : ℚ) ≠ 0.1 * (-0.8) := by
  refine ⟨?_, ?_, by norm_num⟩
  · unfold adaptive_pid_calculate_performance_score
      adaptive_pid_calculate_oscillation initCtl defaultCfg daemon_init_share
    norm_num [cClampHi, cClampLo]
  · unfold adaptive_pid_tune_parameters_ind initCtl
    dsimp only

/-- C6, amended: on a pass with `Δscore < -0.05` the *daemon* tuner
multiplies the stored step sizes by `-0.8` (and, being stored, the
reversed direction persists into subsequent passes); the *indicator*
tuner never mutates the stored step sizes — it negates and scales only
the pass-local effective steps. -/
theorem C6_step_reversal :
    (∀ (cfg : Cfg) (sh : Share) (c : Ctl),
      adaptive_pid_calculate_performance_score cfg sh c - c.adaptivePrevScore
          < -0.05 →
        (adaptive_pid_tune_parameters cfg sh c).kpStep = c.kpStep * (-0.8) ∧
        (adaptive_pid_tune_parameters cfg sh c).kiStep = c.kiStep * (-0.8) ∧
        (adaptive_pid_tune_parameters cfg sh c).kdStep = c.kdStep * (-0.8)) ∧
    (∀ (cfg : Cfg) (sh : Share) (c : Ctl),
      (adaptive_pid_tune_parameters_ind cfg sh c).kpStep = c.kpStep ∧
      (adaptive_pid_tune_parameters_ind cfg sh c).kiStep = c.kiStep ∧
      (adaptive_pid_tune_parameters_ind cfg sh c).kdStep = c.kdStep) := by
  constructor
  · intro cfg sh c hneg
    unfold adaptive_pid_tune_parameters
    dsimp only
    rw [if_neg (by intro hpos; nlinarith), if_pos hneg]
    exact ⟨rfl, rfl, rfl⟩
  · intro cfg sh c
    unfold adaptive_pid_tune_parameters_ind
    dsimp only
    exact ⟨rfl, rfl, rfl⟩

/-- C6 witness: the daemon half of the amended theorem at a concrete pass
with `Δscore = 0.3 - 0.9 = -0.6 < -0.05`; the stored steps flip sign and
shrink. -/
theorem C6_step_reversal_witness :
    (adaptive_pid_tune_parameters defaultCfg
        { daemon_init_share with cpuTemp := 115, gpuTemp := 115 }
        { initCtl with adaptivePrevScore := 0.9 }).kpStep = 0.1 * (-0.8) := by
  have hneg : adaptive_pid_calculate_performance_score defaultCfg
      { daemon_init_share with cpuTemp := 115, gpuTemp := 115 }
      { initCtl with adaptivePrevScore := 0.9 } -
      ({ initCtl with adaptivePrevScore := 0.9 } : Ctl).adaptivePrevScore < -0.05 := by
    unfold adaptive_pid_calculate_performance_score
      adaptive_pid_calculate_oscillation initCtl defaultCfg daemon_init_share
    norm_num [cClampHi, cClampLo]
  have h := (C6_step_reversal.1 defaultCfg
    { daemon_init_share with cpuTemp := 115, gpuTemp := 115 }
    { initCtl with adaptivePrevScore := 0.9 } hneg).1
  rw [h]
  norm_num [initCtl]

/-! ## Claim C4: write coalescing in the auto-mode tick -/

/-- C4, counterexample.  The claim asserts a write is issued *iff* the new
duty differs from `last_written_auto_duty`.  With a cool snapshot
(cpu = gpu = 40 °C, target 65 °C) the PID output clamps to 0, so the
computed duty is 0; with `auto_duty_val = 50` the duty differs from the
last written value, yet the guard `next_duty != 0 && ...` suppresses the
write and leaves `auto_duty_val` at 50. -/
theorem C4_counterexample :
    (ec_auto_duty_adjust defaultCfg
        { daemon_init_share with
            cpuTemp := 40, gpuTemp := 40, fanDuty := 20, autoDutyVal := 50 }
        initCtl).2 = 0 ∧
    (0 : ℤ) ≠ 50 ∧
    (daemon_ec_worker_auto defaultCfg
        { daemon_init_share with
            cpuTemp := 40, gpuTemp := 40, fanDuty := 20, autoDutyVal := 50 }
        initCtl).2.2 = none ∧
    (daemon_ec_worker_auto defaultCfg
        { daemon_init_share with
            cpuTemp := 40, gpuTemp := 40, fanDuty := 20, autoDutyVal := 50 }
        initCtl).1.autoDutyVal = 50 := by
  have hadj : (ec_auto_duty_adjust defaultCfg
      { daemon_init_share with
          cpuTemp := 40, gpuTemp := 40, fanDuty := 20, autoDutyVal := 50 }
      initCtl).2 = 0 := by
    unfold ec_auto_duty_adjust pid_update adaptive_pid_add_temp_history
      initCtl defaultCfg daemon_init_share pid_reset_state
      pid_output_min pid_output_max
    norm_num [cClampHi, cClampLo, ctrunc]
  refine ⟨hadj, by norm_num, ?_, ?_⟩
  · unfold daemon_ec_worker_auto
    rw [if_pos (by rfl), if_neg (by rw [hadj]; norm_num)]
  · unfold daemon_ec_worker_auto
    rw [if_pos (by rfl), if_neg (by rw [hadj]; norm_num)]

/-- C4, amended: on an auto-mode tick an EC write is attempted iff the
computed duty is nonzero *and* differs from `last_written_auto_duty`;
exactly in that case `auto_duty_val` is set to the new duty (the return
value of `ec_write_fan_duty` is ignored, so the update happens even if the
EC transaction fails). -/
theorem C4_write_coalescing (cfg : Cfg) (sh : Share) (c : Ctl)
    (h : sh.autoDuty = 1) :
    ((daemon_ec_worker_auto cfg sh c).2.2 = some (ec_auto_duty_adjust cfg sh c).2 ↔
      (ec_auto_duty_adjust cfg sh c).2 ≠ 0 ∧
        (ec_auto_duty_adjust cfg sh c).2 ≠ sh.autoDutyVal) ∧
    ((daemon_ec_worker_auto cfg sh c).2.2 = none ↔
      ¬((ec_auto_duty_adjust cfg sh c).2 ≠ 0 ∧
        (ec_auto_duty_adjust cfg sh c).2 ≠ sh.autoDutyVal)) ∧
    ((daemon_ec_worker_auto cfg sh c).1.autoDutyVal =
      if (ec_auto_duty_adjust cfg sh c).2 ≠ 0 ∧
          (ec_auto_duty_adjust cfg sh c).2 ≠ sh.autoDutyVal
      then (ec_auto_duty_adjust cfg sh c).2 else sh.autoDutyVal) := by
  unfold daemon_ec_worker_auto
  rw [if_pos h]
  dsimp only
  by_cases hc : (ec_auto_duty_adjust cfg sh c).2 ≠ 0 ∧
      (ec_auto_duty_adjust cfg sh c).2 ≠ sh.autoDutyVal
  · rw [if_pos hc, if_pos hc]
    simp [hc]
  · rw [if_neg hc, if_neg hc]
    simp [hc]

/-- C4 witness: the amended theorem applied at the freshly initialised
share (`auto_duty = 1`). -/
theorem C4_write_coalescing_witness :
    (daemon_ec_worker_auto defaultCfg daemon_init_share initCtl).2.2 = none ↔
      ¬((ec_auto_duty_adjust defaultCfg daemon_init_share initCtl).2 ≠ 0 ∧
        (ec_auto_duty_adjust defaultCfg daemon_init_share initCtl).2 ≠
          daemon_init_share.autoDutyVal) :=
  (C4_write_coalescing defaultCfg daemon_init_share initCtl rfl).2.1

/-! ## Claim C2: learning inhibition (spec-modelled)

The activity detector and the `learning_inhibited` gate are documented in
the repository (the activity-based-learning document, with the daemon
spec §4.4/§4.5) but the code implementing them is not among the provided
sources — the sources' tuner invocation checks only the cycle counter.
The missing pieces are therefore modelled from the spec below and the
claim is settled against that model combined with the embedded code. -/

/-- Modelled from the spec: configuration of the Activity Detector
(spec §4.4) — `temp_delta_threshold`, `fan_delta_threshold`,
`stable_period_seconds`, `max_idle_cycles`; this code is missing from the
provided sources. -/
structure ActCfg where
  tempDeltaThreshold : ℤ
  fanDeltaThreshold : ℤ
  stablePeriodSeconds : ℤ
  maxIdleCycles : ℤ
deriving DecidableEq

/-- Modelled from the spec: the Activity Detector state (spec §3/§4.4) —
`last_activity_timestamp`, `consecutive_idle_cycles`, `learning_inhibited`
and the previous sample used for the activity delta; this code is missing
from the provided sources. -/
structure ActState where
  lastActivityTimestamp : ℤ
  consecutiveIdleCycles : ℤ
  learningInhibited : Bool
  prevTemp : ℤ
  prevDuty : ℤ
deriving DecidableEq

/-- Modelled from the spec: the per-tick Activity Detector update
(spec §4.4) — active iff the temperature delta or the fan delta reaches
its threshold; activity stamps the time, zeroes the idle count and clears
inhibition; then `learning_inhibited` is set iff the stability period has
elapsed or the idle-cycle bound is reached; this code is missing from the
provided sources. -/
def activity_update (acfg : ActCfg) (now : ℤ) (tempNow dutyNow : ℤ)
    (a : ActState) : ActState :=
  let tempChange := |tempNow - a.prevTemp|
  let fanChange := |dutyNow - a.prevDuty|
  let active := tempChange ≥ acfg.tempDeltaThreshold ∨
    fanChange ≥ acfg.fanDeltaThreshold
  let a1 := if active then
      { a with lastActivityTimestamp := now, consecutiveIdleCycles := 0
               learningInhibited := false }
    else { a with consecutiveIdleCycles := a.consecutiveIdleCycles + 1 }
  { a1 with
      learningInhibited :=
        decide (now - a1.lastActivityTimestamp > acfg.stablePeriodSeconds ∨
          a1.consecutiveIdleCycles ≥ acfg.maxIdleCycles)
      prevTemp := tempNow, prevDuty := dutyNow }

/-- Modelled from the spec: `ec_auto_duty_adjust` with the tuner
invocation gated on `learning_inhibited` (spec §4.5: the Adaptive Tuner is
invoked when the cycle counter reaches the tuning interval *and*
`learning_inhibited` is false); identical to the embedded
`ec_auto_duty_adjust` except for the gate, which is missing from the
provided sources. -/
def ec_auto_duty_adjust_gated (cfg : Cfg) (learningInhibited : Bool)
    (sh : Share) (c : Ctl) : Ctl × ℤ :=
  if cfg.pidEnabled = false then
    let temp := max sh.cpuTemp sh.gpuTemp
    let duty := sh.fanDuty
    let newDuty :=
      if temp ≥ cfg.targetTemperature then max (duty + 2) 10 else max (duty - 2) 0
    let newDuty := if newDuty > 100 then 100 else if newDuty < 0 then 0 else newDuty
    (c, newDuty)
  else
    let temp := max sh.cpuTemp sh.gpuTemp
    let error := (temp : ℚ) - (cfg.targetTemperature : ℚ)
    let c1 :=
      if cfg.adaptivePidEnabled then
        let c2 := adaptive_pid_add_temp_history c temp
        let c2 := { c2 with adaptiveCycleCount := c2.adaptiveCycleCount + 1 }
        if c2.adaptiveCycleCount ≥ cfg.adaptiveTuningInterval ∧
            learningInhibited = false then
          { adaptive_pid_tune_parameters cfg sh c2 with adaptiveCycleCount := 0 }
        else c2
      else c
    let r := pid_update c1.pidKp c1.pidKi c1.pidKd c1.pid error
    ({ c1 with pid := r.1 }, r.2.2)

/-- C2.  With learning inhibited, the tick mutates neither the PID gains
nor the tuner's stored state (step sizes, previous score, learning-cycle
counter), while the PID update still runs with the existing gains — the
resulting PID state and duty are exactly those of `pid_update` at the old
gains.  The tuner is applied only when the cycle counter has reached the
tuning interval *and* learning is not inhibited: below the interval
nothing tuner-owned changes either, and when both conditions hold the
gated tick coincides with the embedded (ungated) `ec_auto_duty_adjust`,
which applies `adaptive_pid_tune_parameters` exactly when the counter
reaches the interval. -/
theorem C2_learning_inhibition (cfg : Cfg) (sh : Share) (c : Ctl) (inh : Bool)
    (hpid : cfg.pidEnabled = true) (hadp : cfg.adaptivePidEnabled = true) :
    (inh = true →
      (ec_auto_duty_adjust_gated cfg inh sh c).1.pidKp = c.pidKp ∧
      (ec_auto_duty_adjust_gated cfg inh sh c).1.pidKi = c.pidKi ∧
      (ec_auto_duty_adjust_gated cfg inh sh c).1.pidKd = c.pidKd ∧
      (ec_auto_duty_adjust_gated cfg inh sh c).1.kpStep = c.kpStep ∧
      (ec_auto_duty_adjust_gated cfg inh sh c).1.kiStep = c.kiStep ∧
      (ec_auto_duty_adjust_gated cfg inh sh c).1.kdStep = c.kdStep ∧
      (ec_auto_duty_adjust_gated cfg inh sh c).1.adaptivePrevScore =
        c.adaptivePrevScore ∧
      (ec_auto_duty_adjust_gated cfg inh sh c).1.adaptiveLearningCycles =
        c.adaptiveLearningCycles ∧
      (ec_auto_duty_adjust_gated cfg inh sh c).1.pid =
        (pid_update c.pidKp c.pidKi c.pidKd c.pid
          (((max sh.cpuTemp sh.gpuTemp : ℤ) : ℚ) - (cfg.targetTemperature : ℚ))).1 ∧
      (ec_auto_duty_adjust_gated cfg inh sh c).2 =
        (pid_update c.pidKp c.pidKi c.pidKd c.pid
          (((max sh.cpuTemp sh.gpuTemp : ℤ) : ℚ) - (cfg.targetTemperature : ℚ))).2.2) ∧
    (c.adaptiveCycleCount + 1 < cfg.adaptiveTuningInterval →
      (ec_auto_duty_adjust_gated cfg inh sh c).1.pidKp = c.pidKp ∧
      (ec_auto_duty_adjust_gated cfg inh sh c).1.kpStep = c.kpStep ∧
      (ec_auto_duty_adjust_gated cfg inh sh c).1.adaptivePrevScore =
        c.adaptivePrevScore ∧
      (ec_auto_duty_adjust_gated cfg inh sh c).1.adaptiveLearningCycles =
        c.adaptiveLearningCycles) ∧
    (inh = false →
      ec_auto_duty_adjust_gated cfg inh sh c = ec_auto_duty_adjust cfg sh c) := by
  refine ⟨?_, ?_, ?_⟩
  · intro hinh
    subst hinh
    unfold ec_auto_duty_adjust_gated
    rw [hpid]
    rw [if_neg (by simp)]
    dsimp only
    rw [hadp]
    rw [if_pos rfl]
    rw [if_neg (by simp)]
    exact ⟨rfl, rfl, rfl, rfl, rfl, rfl, rfl, rfl, rfl, rfl⟩
  · intro hlt
    unfold ec_auto_duty_adjust_gated
    rw [hpid]
    rw [if_neg (by simp)]
    dsimp only
    rw [hadp]
    rw [if_pos rfl]
    rw [if_neg (by
      intro hcontra
      exact absurd hcontra.1 (not_le.mpr hlt))]
    exact ⟨rfl, rfl, rfl, rfl⟩
  · intro hinh
    subst hinh
    unfold ec_auto_duty_adjust_gated ec_auto_duty_adjust
    simp only [eq_self_iff_true, and_true]

/-- C2 witness: the theorem at the default configuration, the initial
share and controller state, with learning inhibited. -/
theorem C2_learning_inhibition_witness :
    (ec_auto_duty_adjust_gated defaultCfg true daemon_init_share initCtl).1.pidKp =
        initCtl.pidKp ∧
      (ec_auto_duty_adjust_gated defaultCfg true daemon_init_share initCtl).1.kpStep =
        initCtl.kpStep := by
  have h := (C2_learning_inhibition defaultCfg daemon_init_share initCtl true
    rfl rfl).1 rfl
  exact ⟨h.1, h.2.2.2.1⟩

/-! ## IPC server: `handle_client_command` (`clevo-daemon-socket.c`)

The handler dispatches with `strncmp` prefix tests (6 bytes for `STATUS`,
7 for `SET_FAN`, and — as written in the source — only 14 for
`SET_TARGET_TEMP`), exact `strcmp` for `SET_AUTO` / `GET_TEMP` /
`GET_FAN`, and `sscanf("... %d")` for arguments.  `sscanf`'s literal
prefix plus `" %d"` amounts to: skip whitespace after the matched prefix,
then an optional sign and at least one digit, ignoring anything after the
digits (numeric overflow is not modelled — the commands of interest use
small numbers).  The daemon's `target_temperature` is threaded as an
extra component so that its (non-)mutation is visible; the source's
`SET_TARGET_TEMP` handler only acknowledges — its comment reads "For now,
we'll just acknowledge the command" — and never stores the value. -/

def isSpaceCh (ch : Char) : Bool :=
  ch == ' ' || ch == '\t' || ch == '\n' || ch == '\x0b' || ch == '\x0c' || ch == '\r'

def isDigitCh (ch : Char) : Bool :=
  48 ≤ ch.toNat && ch.toNat ≤ 57

def parseDigits (l : List Char) : Option ℕ :=
  let ds := l.takeWhile isDigitCh
  if ds.isEmpty then none
  else some (ds.foldl (fun acc ch => acc * 10 + (ch.toNat - 48)) 0)

/-- `sscanf`-style `%d` after skipping whitespace. -/
def sscanfInt (l : List Char) : Option ℤ :=
  let l1 := l.dropWhile isSpaceCh
  match l1 with
  | '-' :: r => (parseDigits r).map (fun n => -(n : ℤ))
  | '+' :: r => (parseDigits r).map (fun n => (n : ℤ))
  | _ => (parseDigits l1).map (fun n => (n : ℤ))

/-- `handle_client_command`: one request in, the updated shared state, the
(unreachable-by-the-handler) daemon target temperature, and the textual
response. -/
def handle_client_command (command : String) (sh : Share)
    (targetTemperature : ℤ) : Share × ℤ × String :=
  if command.take 6 = "STATUS" then
    (sh, targetTemperature,
      "CPU:" ++ toString sh.cpuTemp ++ " GPU:" ++ toString sh.gpuTemp ++
        " FAN_DUTY:" ++ toString sh.fanDuty ++ " FAN_RPM:" ++ toString sh.fanRpms ++
        " AUTO:" ++ toString sh.autoDuty)
  else if command.take 7 = "SET_FAN" then
    match sscanfInt (command.drop 7).toList with
    | some duty =>
      if duty ≥ 1 ∧ duty ≤ 100 then
        ({ sh with autoDuty := 0, manualNextFanDuty := duty }, targetTemperature,
          "OK: Fan set to " ++ toString duty ++ "%")
      else (sh, targetTemperature, "ERROR: Invalid duty cycle (must be 1-100)")
    | none => (sh, targetTemperature, "ERROR: Invalid SET_FAN command")
  else if command = "SET_AUTO" then
    ({ sh with autoDuty := 1, manualNextFanDuty := 0 }, targetTemperature,
      "OK: Auto mode enabled")
  else if command.take 14 = "SET_TARGET_TEM" then
    match (if command.take 15 = "SET_TARGET_TEMP" then
        sscanfInt (command.drop 15).toList else none) with
    | some temp =>
      if temp ≥ 40 ∧ temp ≤ 100 then
        (sh, targetTemperature,
          "OK: Target temperature set to " ++ toString temp ++ "°C")
      else
        (sh, targetTemperature,
          "ERROR: Invalid target temperature (must be 40-100°C)")
    | none => (sh, targetTemperature, "ERROR: Invalid SET_TARGET_TEMP command")
  else if command = "GET_TEMP" then
    (sh, targetTemperature,
      "CPU:" ++ toString sh.cpuTemp ++ " GPU:" ++ toString sh.gpuTemp)
  else if command = "GET_FAN" then
    (sh, targetTemperature,
      "DUTY:" ++ toString sh.fanDuty ++ " RPM:" ++ toString sh.fanRpms ++
        " AUTO:" ++ toString sh.autoDuty)
  else
    (sh, targetTemperature, "ERROR: Unknown command \x27" ++ command ++ "\x27")

/-! ## Claim C1: SET_TARGET_TEMP -/

/-- C1 (code bug).  For the in-range request `SET_TARGET_TEMP 70` the
handler replies `OK: Target temperature set to 70°C` but the daemon's
target temperature is left at its old value (65): the handler never
stores the parsed value, so subsequent auto-duty computations keep using
the old target. -/
theorem C1_set_target_temp_not_applied :
    handle_client_command "SET_TARGET_TEMP 70" daemon_init_share 65 =
      (daemon_init_share, 65, "OK: Target temperature set to 70°C") := by
  decide

/-! ## Claim C10: read-only requests leave the state unchanged -/

/-- C10.  Handling `STATUS`, `GET_TEMP` or `GET_FAN` leaves every field of
the shared state (and the target temperature) unchanged: the state
component of the result is the input state itself. -/
theorem C10_read_only_commands_frame (sh : Share) (t : ℤ) :
    (handle_client_command "STATUS" sh t).1 = sh ∧
    (handle_client_command "STATUS" sh t).2.1 = t ∧
    (handle_client_command "GET_TEMP" sh t).1 = sh ∧
    (handle_client_command "GET_TEMP" sh t).2.1 = t ∧
    (handle_client_command "GET_FAN" sh t).1 = sh ∧
    (handle_client_command "GET_FAN" sh t).2.1 = t :=
  ⟨rfl, rfl, rfl, rfl, rfl, rfl⟩

/-! ## Claim C8: error handling for unknown and out-of-range requests -/

/-- The spec's request grammar (§4.7): the defined commands. -/
def isDefinedCommandSpec (c : String) : Prop :=
  c = "STATUS" ∨ c = "GET_TEMP" ∨ c = "GET_FAN" ∨ c = "SET_AUTO" ∨
    (∃ n : ℤ, c = "SET_FAN " ++ toString n) ∨
    (∃ n : ℤ, c = "SET_TARGET_TEMP " ++ toString n)

/-- The response begins with `ERROR:`. -/
def startsWithError (s : String) : Prop :=
  ∃ r, s = "ERROR:" ++ r

/-- C8, counterexample.  `STATUSX` is not a defined command, yet the
handler's `strncmp(command, "STATUS", 6)` prefix test serves it as
`STATUS`: the reply is the status line, not an `ERROR:` response. -/
theorem C8_counterexample :
    ¬ isDefinedCommandSpec "STATUSX" ∧
      ¬ startsWithError
          (handle_client_command "STATUSX" daemon_init_share 65).2.2 ∧
      (handle_client_command "STATUSX" daemon_init_share 65).1 =
        daemon_init_share := by
  refine ⟨?_, ?_, by decide⟩
  · intro h
    rcases h with h | h | h | h | ⟨n, h⟩ | ⟨n, h⟩
    · exact absurd h (by decide)
    · exact absurd h (by decide)
    · exact absurd h (by decide)
    · exact absurd h (by decide)
    · have hlen := congrArg String.length h
      rw [String.length_append] at hlen
      have h7 : ("STATUSX" : String).length = 7 := by decide
      have h8 : ("SET_FAN " : String).length = 8 := by decide
      rw [h7, h8] at hlen
      omega
    · have hlen := congrArg String.length h
      rw [String.length_append] at hlen
      have h7 : ("STATUSX" : String).length = 7 := by decide
      have h16 : ("SET_TARGET_TEMP " : String).length = 16 := by decide
      rw [h7, h16] at hlen
      omega
  · intro hex
    obtain ⟨r, hr⟩ := hex
    have hresp : (handle_client_command "STATUSX" daemon_init_share 65).2.2 =
        "CPU:0 GPU:0 FAN_DUTY:0 FAN_RPM:0 AUTO:1" := by decide
    rw [hresp] at hr
    have hd := congrArg String.data hr
    rw [String.data_append] at hd
    have hh := congrArg List.head? hd
    rw [List.head?_append, show ("ERROR:" : String).data.head? = some 'E' from by decide,
      Option.or_some] at hh
    exact absurd hh (by decide)

/-- C8, amended.  Requests that match none of the handler's dispatch
patterns get an `ERROR:` reply with the state unchanged, and so do the
argument-carrying commands with an out-of-range or unparseable argument.
The dispatch patterns are those of the source: a 6-byte prefix test for
`STATUS`, a 7-byte prefix test for `SET_FAN`, exact matches for
`SET_AUTO` / `GET_TEMP` / `GET_FAN`, and a 14-byte prefix test
(`SET_TARGET_TEM`) for `SET_TARGET_TEMP` — so requests such as `STATUSX`
are served as `STATUS` rather than rejected, which is why the claim's
"every request that is not one of the defined commands" must be narrowed
to requests matching no dispatch pattern. -/
theorem C8_error_semantics (c : String) (sh : Share) (t : ℤ) :
    (c.take 6 ≠ "STATUS" → c.take 7 ≠ "SET_FAN" → c ≠ "SET_AUTO" →
      c.take 14 ≠ "SET_TARGET_TEM" → c ≠ "GET_TEMP" → c ≠ "GET_FAN" →
      (handle_client_command c sh t).1 = sh ∧
        (handle_client_command c sh t).2.1 = t ∧
        startsWithError (handle_client_command c sh t).2.2) ∧
    (∀ n : ℤ, c.take 6 ≠ "STATUS" → c.take 7 = "SET_FAN" →
      sscanfInt (c.drop 7).toList = some n → ¬(n ≥ 1 ∧ n ≤ 100) →
      (handle_client_command c sh t).1 = sh ∧
        (handle_client_command c sh t).2.1 = t ∧
        startsWithError (handle_client_command c sh t).2.2) ∧
    (c.take 6 ≠ "STATUS" → c.take 7 = "SET_FAN" →
      sscanfInt (c.drop 7).toList = none →
      (handle_client_command c sh t).1 = sh ∧
        (handle_client_command c sh t).2.1 = t ∧
        startsWithError (handle_client_command c sh t).2.2) ∧
    (∀ n : ℤ, c.take 6 ≠ "STATUS" → c.take 7 ≠ "SET_FAN" → c ≠ "SET_AUTO" →
      c.take 14 = "SET_TARGET_TEM" → c.take 15 = "SET_TARGET_TEMP" →
      sscanfInt (c.drop 15).toList = some n → ¬(n ≥ 40 ∧ n ≤ 100) →
      (handle_client_command c sh t).1 = sh ∧
        (handle_client_command c sh t).2.1 = t ∧
        startsWithError (handle_client_command c sh t).2.2) ∧
    (c.take 6 ≠ "STATUS" → c.take 7 ≠ "SET_FAN" → c ≠ "SET_AUTO" →
      c.take 14 = "SET_TARGET_TEM" →
      (if c.take 15 = "SET_TARGET_TEMP" then sscanfInt (c.drop 15).toList
        else none) = none →
      (handle_client_command c sh t).1 = sh ∧
        (handle_client_command c sh t).2.1 = t ∧
        startsWithError (handle_client_command c sh t).2.2) := by
  refine ⟨?_, ?_, ?_, ?_, ?_⟩
  · intro h1 h2 h3 h4 h5 h6
    unfold handle_client_command
    rw [if_neg h1, if_neg h2, if_neg h3, if_neg h4, if_neg h5, if_neg h6]
    refine ⟨rfl, rfl, " Unknown command \x27" ++ (c ++ "\x27"), ?_⟩
    rw [show ("ERROR: Unknown command \x27" : String) =
        "ERROR:" ++ " Unknown command \x27" from by decide]
    simp only [String.append_assoc]
  · intro n h1 h2 hp hrange
    unfold handle_client_command
    rw [if_neg h1, if_pos h2, hp]
    dsimp only
    rw [if_neg hrange]
    exact ⟨rfl, rfl, " Invalid duty cycle (must be 1-100)", by rfl⟩
  · intro h1 h2 hp
    unfold handle_client_command
    rw [if_neg h1, if_pos h2, hp]
    dsimp only
    exact ⟨rfl, rfl, " Invalid SET_FAN command", by rfl⟩
  · intro n h1 h2 h3 h4 h15 hp hrange
    unfold handle_client_command
    rw [if_neg h1, if_neg h2, if_neg h3, if_pos h4, if_pos h15, hp]
    dsimp only
    rw [if_neg hrange]
    exact ⟨rfl, rfl, " Invalid target temperature (must be 40-100°C)", by rfl⟩
  · intro h1 h2 h3 h4 hnone
    unfold handle_client_command
    rw [if_neg h1, if_neg h2, if_neg h3, if_pos h4, hnone]
    dsimp only
    exact ⟨rfl, rfl, " Invalid SET_TARGET_TEMP command", by rfl⟩

/-- C8 witness: the amended theorem at the unknown request `FOO` and at
the out-of-range request `SET_FAN 500`. -/
theorem C8_error_semantics_witness :
    ((handle_client_command "FOO" daemon_init_share 65).1 = daemon_init_share ∧
      (handle_client_command "FOO" daemon_init_share 65).2.1 = 65 ∧
      startsWithError (handle_client_command "FOO" daemon_init_share 65).2.2) ∧
    ((handle_client_command "SET_FAN 500" daemon_init_share 65).1 =
        daemon_init_share ∧
      (handle_client_command "SET_FAN 500" daemon_init_share 65).2.1 = 65 ∧
      startsWithError
        (handle_client_command "SET_FAN 500" daemon_init_share 65).2.2) :=
  ⟨(C8_error_semantics "FOO" daemon_init_share 65).1 (by decide) (by decide)
      (by decide) (by decide) (by decide) (by decide),
    (C8_error_semantics "SET_FAN 500" daemon_init_share 65).2.1 500 (by decide)
      (by decide) (by decide) (by decide)⟩
